import Mathlib

/-!
Verification of the Okta unsuspend-user action (`src/script.mjs`).

The operation `invoke` receives a `userId` and resolves a base address and an
authorization header from external collaborators, then issues a POST to the
lifecycle-unsuspend endpoint followed by a GET reading the user back, and
builds a result from the read-back body.  We embed the operation as a pure
function from the collaborator outcomes and the two HTTP responses to the
pair of (trace of issued requests, outcome), where the outcome is either a
thrown error object (message and optional numeric statusCode) or the success
record.  JavaScript `undefined`-able string values are modelled as
`Option String`, with `none` playing the role of `undefined`; JS truthiness
of a string (empty string is falsy) is modelled explicitly where the source
relies on it (`errorBody.errorSummary`, `statusChanged || lastUpdated`).
-/

namespace OktaUnsuspend

/-- JS string coercion of a possibly-undefined string value, as performed by
template literals and by `encodeURIComponent`: `undefined` renders as the
literal string "undefined". -/
def toJSString : Option String → String
  | some s => s
  | none => "undefined"

/-- JS `a || b` on possibly-undefined strings: the empty string is falsy. -/
def jsOr : Option String → Option String → Option String
  | some s, b => if s = "" then b else some s
  | none, b => b

/-- JS `String.prototype.startsWith`, modelled at the character level. -/
def jsStartsWith (s p : String) : Bool := p.data.isPrefixOf s.data

/-- JS `String.prototype.substring(n)`: drop the first `n` code units. -/
def jsSubstring (s : String) (n : Nat) : String := String.mk (s.data.drop n)

/-- Characters left unescaped by `encodeURIComponent` (ECMA-262
`uriUnescaped`: ALPHA / DIGIT / - _ . ! ~ * apostrophe ( ) ). -/
def uriUnescaped (c : Char) : Bool :=
  c.isAlpha || c.isDigit || c = '-' || c = '_' || c = '.' || c = '!' ||
  c = '~' || c = '*' || c = Char.ofNat 39 || c = '(' || c = ')'

/-- Upper-case hexadecimal digit for `n < 16`. -/
def hexUpper (n : Nat) : Char :=
  if n < 10 then Char.ofNat (48 + n) else Char.ofNat (55 + n)

/-- `%XY` percent-escape of one byte. `Char.ofNat 37` is the percent sign. -/
def percentByte (b : Nat) : List Char :=
  [Char.ofNat 37, hexUpper (b / 16), hexUpper (b % 16)]

/-- UTF-8 bytes of a Unicode scalar value. -/
def utf8Bytes (c : Char) : List Nat :=
  let n := c.toNat
  if n < 128 then [n]
  else if n < 2048 then [192 + n / 64, 128 + n % 64]
  else if n < 65536 then [224 + n / 4096, 128 + n / 64 % 64, 128 + n % 64]
  else [240 + n / 262144, 128 + n / 4096 % 64, 128 + n / 64 % 64, 128 + n % 64]

/-- `encodeURIComponent` applied to one character: kept if unescaped,
otherwise every UTF-8 byte is percent-escaped. -/
def encodeChar (c : Char) : List Char :=
  if uriUnescaped c then [c]
  else (utf8Bytes c).foldr (fun b acc => percentByte b ++ acc) []

/-- `encodeURIComponent` over a character list. -/
def encodeList : List Char → List Char
  | [] => []
  | c :: cs => encodeChar c ++ encodeList cs

/-- JS `encodeURIComponent`. -/
def encodeURIComponent (s : String) : String := String.mk (encodeList s.data)

/-- URL built by `unsuspendUser`:
`${baseUrl}/api/v1/users/${encodedUserId}/lifecycle/unsuspend`. -/
def unsuspendUserUrl (userId baseUrl : String) : String :=
  baseUrl ++ "/api/v1/users/" ++ encodeURIComponent userId ++ "/lifecycle/unsuspend"

/-- URL built by `getUser`: `${baseUrl}/api/v1/users/${encodedUserId}`. -/
def getUserUrl (userId baseUrl : String) : String :=
  baseUrl ++ "/api/v1/users/" ++ encodeURIComponent userId

/-- SSWS token normalization (script.mjs lines 103-106): only when the
bearer-token secret is configured and the resolved Authorization value
starts with "Bearer ", strip that prefix and add "SSWS " unless the
remaining token already starts with it. -/
def normalizeAuthHeader (bearerTokenSet : Bool) (auth : String) : String :=
  if bearerTokenSet && jsStartsWith auth "Bearer " then
    let token := jsSubstring auth 7
    if jsStartsWith token "SSWS " then token else "SSWS " ++ token
  else auth

/-- `Response.ok`: HTTP status in the range [200, 300). -/
def responseOk (status : Nat) : Bool := 200 ≤ status && status < 300

/-- Parsed JSON body of the transition response; the code reads only the
`errorSummary` field (absent field modelled as `none`). -/
structure TransitionBody where
  errorSummary : Option String
deriving DecidableEq

/-- Parsed JSON body of the verification read; the code reads the `status`,
`statusChanged` and `lastUpdated` fields (absent fields modelled as `none`). -/
structure UserBody where
  status : Option String
  statusChanged : Option String
  lastUpdated : Option String
deriving DecidableEq

instance {ε α : Type} [DecidableEq ε] [DecidableEq α] : DecidableEq (Except ε α) :=
  fun a b =>
    match a, b with
    | Except.error x, Except.error y =>
      if h : x = y then Decidable.isTrue (congrArg Except.error h)
      else Decidable.isFalse (fun hc => h (Except.error.inj hc))
    | Except.ok x, Except.ok y =>
      if h : x = y then Decidable.isTrue (congrArg Except.ok h)
      else Decidable.isFalse (fun hc => h (Except.ok.inj hc))
    | Except.error _, Except.ok _ => Decidable.isFalse (fun hc => Except.noConfusion hc)
    | Except.ok _, Except.error _ => Decidable.isFalse (fun hc => Except.noConfusion hc)

/-- An HTTP response as consumed by the operation: its status code and the
outcome of `response.json()` (`Except.error m` models a parse failure whose
thrown error carries message `m`). -/
structure HttpResponse (β : Type) where
  status : Nat
  body : Except String β
deriving DecidableEq

/-- An outbound request as issued by `fetch`: method, URL and the
Authorization header value in effect. -/
structure HttpRequest where
  method : String
  url : String
  authorization : String
deriving DecidableEq

/-- A thrown error: message plus the `statusCode` attribute attached by
`createError` (errors from the external resolvers carry none). -/
structure ErrObj where
  message : String
  statusCode : Option Nat
deriving DecidableEq

/-- The success record returned by `invoke`. -/
structure InvokeResult where
  userId : Option String
  unsuspended : Bool
  address : String
  unsuspendedAt : Option String
  status : Option String
deriving DecidableEq

/-- The `invoke` handler of `src/script.mjs`, embedded as a pure function.
`base` and `auth` are the outcomes of the external collaborators
`getBaseURL` and `createAuthHeaders` (a thrown collaborator error
propagates before any request is issued); `bearerTokenSet` is the
truthiness of `context.secrets.BEARER_AUTH_TOKEN`; `unsuspendResp` and
`getUserResp` are the responses the environment returns for the POST and
the GET.  The first component of the result is the trace of requests
actually issued, in order. -/
def invoke (userId : Option String) (base : Except String String)
    (auth : Except String String) (bearerTokenSet : Bool)
    (unsuspendResp : HttpResponse TransitionBody)
    (getUserResp : HttpResponse UserBody) :
    List HttpRequest × Except ErrObj InvokeResult :=
  match base with
  | Except.error m => ([], Except.error { message := m, statusCode := none })
  | Except.ok baseUrl =>
    match auth with
    | Except.error m => ([], Except.error { message := m, statusCode := none })
    | Except.ok authValue =>
      let authHeader := normalizeAuthHeader bearerTokenSet authValue
      let postReq : HttpRequest :=
        { method := "POST", url := unsuspendUserUrl (toJSString userId) baseUrl,
          authorization := authHeader }
      if !responseOk unsuspendResp.status && unsuspendResp.status != 400 then
        let errorMessage :=
          match unsuspendResp.body with
          | Except.ok errorBody =>
            match errorBody.errorSummary with
            | some s =>
              if s = "" then "Failed to unsuspend user: HTTP " ++ toString unsuspendResp.status
              else "Failed to unsuspend user: " ++ s
            | none => "Failed to unsuspend user: HTTP " ++ toString unsuspendResp.status
          | Except.error _ => "Failed to unsuspend user: HTTP " ++ toString unsuspendResp.status
        ([postReq],
         Except.error { message := errorMessage, statusCode := some unsuspendResp.status })
      else
        let getReq : HttpRequest :=
          { method := "GET", url := getUserUrl (toJSString userId) baseUrl,
            authorization := authHeader }
        if !responseOk getUserResp.status then
          ([postReq, getReq],
           Except.error
             { message := "Cannot fetch information about User: HTTP " ++
                 toString getUserResp.status,
               statusCode := some getUserResp.status })
        else
          match getUserResp.body with
          | Except.error em =>
            ([postReq, getReq],
             Except.error { message := "Cannot parse user data: " ++ em,
                            statusCode := some 500 })
          | Except.ok userData =>
            if userData.status = some "SUSPENDED" then
              ([postReq, getReq],
               Except.error
                 { message := "User " ++ toJSString userId ++
                     " could not be unsuspended. User is currently " ++
                     toJSString userData.status,
                   statusCode := some 400 })
            else
              ([postReq, getReq],
               Except.ok
                 { userId := userId, unsuspended := true, address := baseUrl,
                   unsuspendedAt := jsOr userData.statusChanged userData.lastUpdated,
                   status := userData.status })

/-! ## Helper lemmas -/

theorem responseOk_true {t : Nat} (h : 200 ≤ t ∧ t < 300) : responseOk t = true := by
  simp only [responseOk, Bool.and_eq_true, decide_eq_true_eq]
  omega

theorem responseOk_false {t : Nat} (h : ¬(200 ≤ t ∧ t < 300)) : responseOk t = false := by
  simp only [responseOk, Bool.and_eq_false_iff, decide_eq_false_iff_not]
  omega

theorem transitionPasses {t : Nat} (h : (200 ≤ t ∧ t < 300) ∨ t = 400) :
    (!responseOk t && t != 400) = false := by
  rcases h with h | h
  · simp [responseOk_true h]
  · subst h
    simp

theorem transitionFails {t : Nat} (h1 : ¬(200 ≤ t ∧ t < 300)) (h2 : t ≠ 400) :
    (!responseOk t && t != 400) = true := by
  simp [responseOk_false h1, h2]

theorem jsStartsWith_data {s p : String} (h : jsStartsWith s p = true) :
    ∃ t, s.data = p.data ++ t := by
  unfold jsStartsWith at h
  obtain ⟨t, ht⟩ := List.isPrefixOf_iff_prefix.mp h
  exact ⟨t, ht.symm⟩

theorem jsStartsWith_append (p t : String) : jsStartsWith (p ++ t) p = true := by
  unfold jsStartsWith
  rw [String.data_append]
  exact List.isPrefixOf_iff_prefix.mpr (List.prefix_append _ _)

theorem jsSubstring_bearer (t : String) : jsSubstring ("Bearer " ++ t) 7 = t := by
  unfold jsSubstring
  rw [String.data_append]
  have h7 : ("Bearer ").data.length = 7 := rfl
  rw [List.drop_left' h7]

/-! ## Claims -/

/-- C1: the claim says an invocation with an absent userId fails with a
descriptive validation error and issues zero network calls.  The `invoke`
handler of `src/script.mjs` performs no userId validation at all: with
`userId` absent (and address and credentials resolvable) it issues the
POST — with the JS string rendering "undefined" of the missing value in the
path — and then the GET, and returns success.  This theorem evaluates the
embedded code at that failing input, exhibiting the two issued requests and
the success outcome. -/
theorem claim_C1_missing_userId_still_calls_network :
    (invoke none (Except.ok "https://example.okta.com") (Except.ok "SSWS test-token") true
        { status := 200, body := Except.ok { errorSummary := none } }
        { status := 200,
          body := Except.ok { status := some "ACTIVE",
                              statusChanged := some "2024-01-15T10:30:00.000Z",
                              lastUpdated := none } }) =
      ([{ method := "POST",
          url := "https://example.okta.com/api/v1/users/undefined/lifecycle/unsuspend",
          authorization := "SSWS test-token" },
        { method := "GET",
          url := "https://example.okta.com/api/v1/users/undefined",
          authorization := "SSWS test-token" }],
       Except.ok { userId := none, unsuspended := true, address := "https://example.okta.com",
                   unsuspendedAt := some "2024-01-15T10:30:00.000Z", status := some "ACTIVE" }) := by
  decide

/-- C2: for every non-empty userId and resolvable address, if the transition
POST returns a 2xx status and the verification GET returns 2xx with a body
whose status field is "ACTIVE", then invoke returns exactly
{userId, unsuspended: true, address, unsuspendedAt: read-back timestamp,
status: "ACTIVE"}. -/
theorem claim_C2_success_result (uid baseUrl auth ts : String) (bset : Bool)
    (tb : Except String TransitionBody) (lu : Option String) (t r : Nat)
    (_huid : uid ≠ "") (hts : ts ≠ "") (ht : 200 ≤ t ∧ t < 300) (hr : 200 ≤ r ∧ r < 300) :
    (invoke (some uid) (Except.ok baseUrl) (Except.ok auth) bset
        { status := t, body := tb }
        { status := r,
          body := Except.ok { status := some "ACTIVE", statusChanged := some ts,
                              lastUpdated := lu } }).2 =
      Except.ok { userId := some uid, unsuspended := true, address := baseUrl,
                  unsuspendedAt := some ts, status := some "ACTIVE" } := by
  have h1 := transitionPasses (Or.inl ht)
  have h2 := responseOk_true hr
  simp [invoke, h1, h2, jsOr, hts]

/-- Witness for C2 at the scenario from the claim: userId "user123", address
"https://example.okta.com", transition 200, read-back 200 with body
{status: "ACTIVE", statusChanged: "2024-01-15T10:30:00.000Z"}. -/
theorem claim_C2_witness :
    (invoke (some "user123") (Except.ok "https://example.okta.com")
        (Except.ok "SSWS test-token-123") true
        { status := 200, body := Except.ok { errorSummary := none } }
        { status := 200,
          body := Except.ok { status := some "ACTIVE",
                              statusChanged := some "2024-01-15T10:30:00.000Z",
                              lastUpdated := none } }).2 =
      Except.ok { userId := some "user123", unsuspended := true,
                  address := "https://example.okta.com",
                  unsuspendedAt := some "2024-01-15T10:30:00.000Z",
                  status := some "ACTIVE" } :=
  claim_C2_success_result "user123" "https://example.okta.com" "SSWS test-token-123"
    "2024-01-15T10:30:00.000Z" true (Except.ok { errorSummary := none }) none 200 200
    (by decide) (by decide) (by decide) (by decide)

/-- C3: for every non-empty userId, resolvable address and fixed verification
read-back with status "ACTIVE", an invocation whose transition POST returns
400 succeeds, and returns a result equal to that of an invocation whose
transition POST returns any 2xx status (the transition bodies of the two
runs are arbitrary, since neither is read on this path). -/
theorem claim_C3_http400_idempotent (uid baseUrl auth : String) (bset : Bool)
    (tb tb' : Except String TransitionBody) (ub : UserBody) (t r : Nat)
    (_huid : uid ≠ "") (ht : 200 ≤ t ∧ t < 300) (hr : 200 ≤ r ∧ r < 300)
    (hs : ub.status = some "ACTIVE") :
    (∃ res,
      (invoke (some uid) (Except.ok baseUrl) (Except.ok auth) bset
          { status := 400, body := tb } { status := r, body := Except.ok ub }).2 =
        Except.ok res) ∧
    (invoke (some uid) (Except.ok baseUrl) (Except.ok auth) bset
        { status := 400, body := tb } { status := r, body := Except.ok ub }).2 =
      (invoke (some uid) (Except.ok baseUrl) (Except.ok auth) bset
          { status := t, body := tb' } { status := r, body := Except.ok ub }).2 := by
  have h400 := transitionPasses (Or.inr (rfl : (400 : Nat) = 400))
  have h2xx := transitionPasses (Or.inl ht)
  have h2 := responseOk_true hr
  constructor
  · refine ⟨{ userId := some uid, unsuspended := true, address := baseUrl,
              unsuspendedAt := jsOr ub.statusChanged ub.lastUpdated,
              status := ub.status }, ?_⟩
    simp [invoke, h400, h2, hs]
  · simp [invoke, h400, h2xx, h2, hs]

/-- Witness for C3: transition 400 vs transition 200 with read-back
{status: "ACTIVE", statusChanged: "2024-01-15T10:30:00.000Z"} give the same
successful outcome. -/
theorem claim_C3_witness :
    (∃ res,
      (invoke (some "active-user") (Except.ok "https://example.okta.com")
          (Except.ok "SSWS test-token") true
          { status := 400, body := Except.ok { errorSummary := some "Api validation failed: User is not suspended" } }
          { status := 200,
            body := Except.ok { status := some "ACTIVE",
                                statusChanged := some "2024-01-15T10:30:00.000Z",
                                lastUpdated := none } }).2 =
        Except.ok res) ∧
    (invoke (some "active-user") (Except.ok "https://example.okta.com")
        (Except.ok "SSWS test-token") true
        { status := 400, body := Except.ok { errorSummary := some "Api validation failed: User is not suspended" } }
        { status := 200,
          body := Except.ok { status := some "ACTIVE",
                              statusChanged := some "2024-01-15T10:30:00.000Z",
                              lastUpdated := none } }).2 =
      (invoke (some "active-user") (Except.ok "https://example.okta.com")
          (Except.ok "SSWS test-token") true
          { status := 200, body := Except.ok { errorSummary := none } }
          { status := 200,
            body := Except.ok { status := some "ACTIVE",
                                statusChanged := some "2024-01-15T10:30:00.000Z",
                                lastUpdated := none } }).2 :=
  claim_C3_http400_idempotent "active-user" "https://example.okta.com" "SSWS test-token"
    true (Except.ok { errorSummary := some "Api validation failed: User is not suspended" })
    (Except.ok { errorSummary := none })
    { status := some "ACTIVE", statusChanged := some "2024-01-15T10:30:00.000Z",
      lastUpdated := none }
    200 200 (by decide) (by decide) (by decide) (by decide)

/-- C4: for every transition POST response whose status is neither 2xx nor
400, invoke fails immediately without issuing the verification GET (the
trace holds only the POST); the error's statusCode equals the remote status
and the message carries the body's errorSummary when the body parses and
holds a non-empty one, else the generic "Failed to unsuspend user: HTTP
<status>" form. -/
theorem claim_C4_transition_rejection (uid baseUrl auth : String) (bset : Bool)
    (tb : Except String TransitionBody) (rResp : HttpResponse UserBody) (t : Nat)
    (h1 : ¬(200 ≤ t ∧ t < 300)) (h2 : t ≠ 400) :
    (invoke (some uid) (Except.ok baseUrl) (Except.ok auth) bset
        { status := t, body := tb } rResp).1 =
      [{ method := "POST", url := unsuspendUserUrl uid baseUrl,
         authorization := normalizeAuthHeader bset auth }] ∧
    (∀ s, s ≠ "" → tb = Except.ok { errorSummary := some s } →
      (invoke (some uid) (Except.ok baseUrl) (Except.ok auth) bset
          { status := t, body := tb } rResp).2 =
        Except.error { message := "Failed to unsuspend user: " ++ s,
                       statusCode := some t }) ∧
    ((tb = Except.ok { errorSummary := none } ∨ tb = Except.ok { errorSummary := some "" } ∨
        ∃ m, tb = Except.error m) →
      (invoke (some uid) (Except.ok baseUrl) (Except.ok auth) bset
          { status := t, body := tb } rResp).2 =
        Except.error { message := "Failed to unsuspend user: HTTP " ++ toString t,
                       statusCode := some t }) := by
  have hc := transitionFails h1 h2
  refine ⟨?_, ?_, ?_⟩
  · cases tb with
    | ok b => simp [invoke, hc, toJSString]
    | error m => simp [invoke, hc, toJSString]
  · intro s hs htb
    subst htb
    simp [invoke, hc, hs]
  · rintro (htb | htb | ⟨m, htb⟩) <;> subst htb <;> simp [invoke, hc]

/-- Witness for C4 at the scenario from the claim: transition 404 with body
{errorSummary: "Not found: Resource not found: invalid-user (User)"} — only
the POST is issued, the message carries the summary, statusCode is 404. -/
theorem claim_C4_witness :
    (invoke (some "invalid-user") (Except.ok "https://example.okta.com")
        (Except.ok "SSWS test-token") true
        { status := 404,
          body := Except.ok { errorSummary := some "Not found: Resource not found: invalid-user (User)" } }
        { status := 200,
          body := Except.ok { status := some "ACTIVE", statusChanged := none,
                              lastUpdated := none } }).1 =
      [{ method := "POST",
         url := unsuspendUserUrl "invalid-user" "https://example.okta.com",
         authorization := normalizeAuthHeader true "SSWS test-token" }] ∧
    (invoke (some "invalid-user") (Except.ok "https://example.okta.com")
        (Except.ok "SSWS test-token") true
        { status := 404,
          body := Except.ok { errorSummary := some "Not found: Resource not found: invalid-user (User)" } }
        { status := 200,
          body := Except.ok { status := some "ACTIVE", statusChanged := none,
                              lastUpdated := none } }).2 =
      Except.error { message := "Failed to unsuspend user: " ++ "Not found: Resource not found: invalid-user (User)",
                     statusCode := some 404 } :=
  have h := claim_C4_transition_rejection "invalid-user" "https://example.okta.com"
    "SSWS test-token" true
    (Except.ok { errorSummary := some "Not found: Resource not found: invalid-user (User)" })
    { status := 200,
      body := Except.ok { status := some "ACTIVE", statusChanged := none, lastUpdated := none } }
    404 (by decide) (by decide)
  ⟨h.1, h.2.1 "Not found: Resource not found: invalid-user (User)" (by decide) rfl⟩

/-- C5: for every transition outcome that reaches verification (2xx or 400),
a verification read-back whose status field is "SUSPENDED" makes invoke
throw an error with statusCode 400 whose message names the userId and the
still-suspended state, regardless of the transition response. -/
theorem claim_C5_reconciliation (uid baseUrl auth : String) (bset : Bool)
    (tb : Except String TransitionBody) (sc lu : Option String) (t r : Nat)
    (ht : (200 ≤ t ∧ t < 300) ∨ t = 400) (hr : 200 ≤ r ∧ r < 300) :
    (invoke (some uid) (Except.ok baseUrl) (Except.ok auth) bset
        { status := t, body := tb }
        { status := r,
          body := Except.ok { status := some "SUSPENDED", statusChanged := sc,
                              lastUpdated := lu } }).2 =
      Except.error { message := "User " ++ uid ++ " could not be unsuspended. User is currently " ++ "SUSPENDED",
                     statusCode := some 400 } := by
  have h1 := transitionPasses ht
  have h2 := responseOk_true hr
  simp [invoke, h1, h2, toJSString]

/-- Witness for C5: transition 400 followed by a read-back of a still
SUSPENDED user yields the 400 reconciliation error naming the user. -/
theorem claim_C5_witness :
    (invoke (some "suspended-user") (Except.ok "https://example.okta.com")
        (Except.ok "SSWS test-token") true
        { status := 400, body := Except.ok { errorSummary := some "Api validation failed" } }
        { status := 200,
          body := Except.ok { status := some "SUSPENDED", statusChanged := none,
                              lastUpdated := none } }).2 =
      Except.error { message := "User " ++ "suspended-user" ++ " could not be unsuspended. User is currently " ++ "SUSPENDED",
                     statusCode := some 400 } :=
  claim_C5_reconciliation "suspended-user" "https://example.okta.com" "SSWS test-token"
    true (Except.ok { errorSummary := some "Api validation failed" }) none none 400 200
    (by decide) (by decide)

theorem ssws_not_bearer {h : String} (hs : jsStartsWith h "SSWS " = true) :
    jsStartsWith h "Bearer " = false := by
  obtain ⟨t1, ht1⟩ := jsStartsWith_data hs
  cases hb : jsStartsWith h "Bearer " with
  | false => rfl
  | true =>
    obtain ⟨t2, ht2⟩ := jsStartsWith_data hb
    rw [ht1] at ht2
    have hS : ("SSWS ").data = 'S' :: 'S' :: 'W' :: 'S' :: ' ' :: [] := rfl
    have hB : ("Bearer ").data = 'B' :: 'e' :: 'a' :: 'r' :: 'e' :: 'r' :: ' ' :: [] := rfl
    rw [hS, hB] at ht2
    simp at ht2

/-- C6: token normalization of the resolved Authorization header value.
Under the bearer-token scheme, a header carrying the generic "Bearer "
prefix whose token does not carry the provider prefix gains "SSWS " exactly
once; a header already carrying "SSWS " is passed through unchanged; under
any non-bearer scheme the header is passed through unmodified. -/
theorem claim_C6_token_normalization :
    (∀ t : String, jsStartsWith t "SSWS " = false →
      normalizeAuthHeader true ("Bearer " ++ t) = "SSWS " ++ t) ∧
    (∀ h : String, jsStartsWith h "SSWS " = true → normalizeAuthHeader true h = h) ∧
    (∀ h : String, normalizeAuthHeader false h = h) := by
  refine ⟨?_, ?_, ?_⟩
  · intro t hts
    unfold normalizeAuthHeader
    rw [jsStartsWith_append]
    simp [jsSubstring_bearer, hts]
  · intro h hs
    unfold normalizeAuthHeader
    rw [ssws_not_bearer hs]
    simp
  · intro h
    simp [normalizeAuthHeader]

/-- Witness for C6 at the credential values exercised by the test suite. -/
theorem claim_C6_witness :
    normalizeAuthHeader true ("Bearer " ++ "token-without-prefix") =
      "SSWS " ++ "token-without-prefix" ∧
    normalizeAuthHeader true "SSWS test-token-123" = "SSWS test-token-123" ∧
    normalizeAuthHeader false "Bearer oauth-token-xyz" = "Bearer oauth-token-xyz" :=
  ⟨claim_C6_token_normalization.1 "token-without-prefix" (by decide),
   claim_C6_token_normalization.2.1 "SSWS test-token-123" (by decide),
   claim_C6_token_normalization.2.2 "Bearer oauth-token-xyz"⟩

theorem hexUpper_safe : ∀ n, n < 16 → hexUpper n ≠ '/' ∧ hexUpper n ≠ ' ' ∧ hexUpper n ≠ '@' := by
  decide

theorem percentByte_safe {b : Nat} (hb : b < 256) :
    ∀ c ∈ percentByte b, c ≠ '/' ∧ c ≠ ' ' ∧ c ≠ '@' := by
  intro c hc
  have h1 : b / 16 < 16 := by omega
  have h2 : b % 16 < 16 := by omega
  unfold percentByte at hc
  simp only [List.mem_cons, List.not_mem_nil, or_false] at hc
  rcases hc with rfl | rfl | rfl
  · exact ⟨by decide, by decide, by decide⟩
  · exact hexUpper_safe _ h1
  · exact hexUpper_safe _ h2

theorem char_toNat_lt (c : Char) : c.toNat < 1114112 := by
  show c.val.toNat < 1114112
  rcases c.valid with h | h
  · have h1 : c.val.toNat < 55296 := h
    omega
  · exact h.2

theorem utf8Bytes_lt (c : Char) : ∀ b ∈ utf8Bytes c, b < 256 := by
  have hc := char_toNat_lt c
  intro b hb
  unfold utf8Bytes at hb
  dsimp only at hb
  split at hb
  · simp only [List.mem_singleton] at hb
    omega
  · split at hb
    · simp only [List.mem_cons, List.not_mem_nil, or_false] at hb
      rcases hb with rfl | rfl <;> omega
    · split at hb
      · simp only [List.mem_cons, List.not_mem_nil, or_false] at hb
        rcases hb with rfl | rfl | rfl <;> omega
      · simp only [List.mem_cons, List.not_mem_nil, or_false] at hb
        rcases hb with rfl | rfl | rfl | rfl <;> omega

theorem foldr_percentByte_safe :
    ∀ bs : List Nat, (∀ b ∈ bs, b < 256) →
      ∀ c ∈ bs.foldr (fun b acc => percentByte b ++ acc) [],
        c ≠ '/' ∧ c ≠ ' ' ∧ c ≠ '@' := by
  intro bs
  induction bs with
  | nil =>
    intro _ c hc
    simp at hc
  | cons b rest ih =>
    intro hbound c hc
    simp only [List.foldr_cons, List.mem_append] at hc
    rcases hc with hc | hc
    · exact percentByte_safe (hbound b (by simp)) c hc
    · exact ih (fun x hx => hbound x (by simp [hx])) c hc

theorem encodeChar_safe (c : Char) : ∀ x ∈ encodeChar c, x ≠ '/' ∧ x ≠ ' ' ∧ x ≠ '@' := by
  intro x hx
  unfold encodeChar at hx
  split at hx
  · simp only [List.mem_singleton] at hx
    subst hx
    rename_i h
    refine ⟨?_, ?_, ?_⟩ <;> rintro rfl <;> revert h <;> decide
  · exact foldr_percentByte_safe (utf8Bytes c) (utf8Bytes_lt c) x hx

theorem encodeList_safe : ∀ cs : List Char, ∀ x ∈ encodeList cs,
    x ≠ '/' ∧ x ≠ ' ' ∧ x ≠ '@' := by
  intro cs
  induction cs with
  | nil =>
    intro x hx
    simp [encodeList] at hx
  | cons c rest ih =>
    intro x hx
    simp only [encodeList, List.mem_append] at hx
    rcases hx with hx | hx
    · exact encodeChar_safe c x hx
    · exact ih x hx

/-- C7: both request URLs are built from the percent-encoded userId segment,
and for every userId the encoded segment contains no literal '/', no space
and no '@' — the reserved characters are encoded and the identifier cannot
introduce extra path segments. -/
theorem claim_C7_percent_encoding (uid baseUrl : String) :
    unsuspendUserUrl uid baseUrl =
      baseUrl ++ "/api/v1/users/" ++ encodeURIComponent uid ++ "/lifecycle/unsuspend" ∧
    getUserUrl uid baseUrl = baseUrl ++ "/api/v1/users/" ++ encodeURIComponent uid ∧
    ∀ c ∈ (encodeURIComponent uid).data, c ≠ '/' ∧ c ≠ ' ' ∧ c ≠ '@' := by
  refine ⟨rfl, rfl, ?_⟩
  intro c hc
  exact encodeList_safe uid.data c hc

/-- Witness for C7 at the traversal-style userId from the claim: the encoded
segment and full POST URL match the expected encoding, and the theorem
applies at a concrete character of the encoded segment. -/
theorem claim_C7_witness :
    encodeURIComponent "user@test.com/../../admin" = "user%40test.com%2F..%2F..%2Fadmin" ∧
    unsuspendUserUrl "user@test.com/../../admin" "https://example.okta.com" =
      "https://example.okta.com/api/v1/users/user%40test.com%2F..%2F..%2Fadmin/lifecycle/unsuspend" ∧
    ('u' ≠ '/' ∧ 'u' ≠ ' ' ∧ 'u' ≠ '@') :=
  ⟨by decide, by decide,
   (claim_C7_percent_encoding "user@test.com/../../admin" "https://example.okta.com").2.2
     'u' (by decide)⟩

/-- C8: for every verification GET response with a non-2xx status (after a
transition that reached verification), invoke throws an error whose
message is "Cannot fetch information about User: HTTP <status>" and whose
statusCode equals that remote status; the message is distinct from the
transition-rejection message for the same status. -/
theorem claim_C8_read_failure (uid baseUrl auth : String) (bset : Bool)
    (tb : Except String TransitionBody) (rb : Except String UserBody) (t r : Nat)
    (ht : (200 ≤ t ∧ t < 300) ∨ t = 400) (hr : ¬(200 ≤ r ∧ r < 300)) :
    (invoke (some uid) (Except.ok baseUrl) (Except.ok auth) bset
        { status := t, body := tb } { status := r, body := rb }).2 =
      Except.error { message := "Cannot fetch information about User: HTTP " ++ toString r,
                     statusCode := some r } ∧
    "Cannot fetch information about User: HTTP " ++ toString r ≠
      "Failed to unsuspend user: HTTP " ++ toString r := by
  have h1 := transitionPasses ht
  have h2 := responseOk_false hr
  refine ⟨?_, ?_⟩
  · simp [invoke, h1, h2]
  · intro heq
    have hl := congrArg String.length heq
    rw [String.length_append, String.length_append] at hl
    have e1 : ("Cannot fetch information about User: HTTP ").length = 42 := rfl
    have e2 : ("Failed to unsuspend user: HTTP ").length = 31 := rfl
    rw [e1, e2] at hl
    omega

/-- Witness for C8 at the scenario from the claim: transition 200 followed
by read-back 500. -/
theorem claim_C8_witness :
    (invoke (some "user123") (Except.ok "https://example.okta.com")
        (Except.ok "SSWS test-token") true
        { status := 200, body := Except.ok { errorSummary := none } }
        { status := 500, body := Except.ok { status := some "ACTIVE", statusChanged := none,
                                             lastUpdated := none } }).2 =
      Except.error { message := "Cannot fetch information about User: HTTP " ++ toString 500,
                     statusCode := some 500 } ∧
    "Cannot fetch information about User: HTTP " ++ toString 500 ≠
      "Failed to unsuspend user: HTTP " ++ toString 500 :=
  claim_C8_read_failure "user123" "https://example.okta.com" "SSWS test-token" true
    (Except.ok { errorSummary := none })
    (Except.ok { status := some "ACTIVE", statusChanged := none, lastUpdated := none })
    200 500 (by decide) (by decide)

/-- C9, counterexample to the claim as stated: the claim says `unsuspendedAt`
is the `statusChanged` value whenever that field is present.  With a
read-back body carrying `statusChanged: ""` (present) and
`lastUpdated: "2024-01-15T12:45:00.000Z"`, the code's JS `||` treats the
empty string as falsy and returns the `lastUpdated` value, not the present
`statusChanged` value "". -/
theorem claim_C9_counterexample :
    (invoke (some "user123") (Except.ok "https://example.okta.com")
        (Except.ok "SSWS test-token") true
        { status := 200, body := Except.ok { errorSummary := none } }
        { status := 200,
          body := Except.ok { status := some "ACTIVE", statusChanged := some "",
                              lastUpdated := some "2024-01-15T12:45:00.000Z" } }).2 =
      Except.ok { userId := some "user123", unsuspended := true,
                  address := "https://example.okta.com",
                  unsuspendedAt := some "2024-01-15T12:45:00.000Z",
                  status := some "ACTIVE" } ∧
    (some "2024-01-15T12:45:00.000Z" : Option String) ≠ some "" := by
  decide

/-- C9, amended: for every successful invocation, `unsuspendedAt` is the
`statusChanged` value when that field is present and non-empty; otherwise
the `lastUpdated` value when `statusChanged` is absent or empty (undefined
when `lastUpdated` is also absent) — an empty `statusChanged` string is
falsy in JS and treated as absent. -/
theorem claim_C9_timestamp_fallback (uid baseUrl auth : String) (bset : Bool)
    (tb : Except String TransitionBody) (st sc lu : Option String) (t r : Nat)
    (ht : (200 ≤ t ∧ t < 300) ∨ t = 400) (hr : 200 ≤ r ∧ r < 300)
    (hst : st ≠ some "SUSPENDED") :
    (invoke (some uid) (Except.ok baseUrl) (Except.ok auth) bset
        { status := t, body := tb }
        { status := r,
          body := Except.ok { status := st, statusChanged := sc, lastUpdated := lu } }).2 =
      Except.ok { userId := some uid, unsuspended := true, address := baseUrl,
                  unsuspendedAt := jsOr sc lu, status := st } ∧
    (∀ s, sc = some s → s ≠ "" → jsOr sc lu = some s) ∧
    ((sc = none ∨ sc = some "") → jsOr sc lu = lu) := by
  have h1 := transitionPasses ht
  have h2 := responseOk_true hr
  refine ⟨?_, ?_, ?_⟩
  · simp [invoke, h1, h2, hst]
  · intro s hsc hs
    subst hsc
    simp [jsOr, hs]
  · rintro (rfl | rfl) <;> simp [jsOr]

/-- Witness for the amended C9 at the test scenario with only `lastUpdated`
present: that value is returned in `unsuspendedAt`. -/
theorem claim_C9_witness :
    (invoke (some "user123") (Except.ok "https://example.okta.com")
        (Except.ok "SSWS test-token") true
        { status := 200, body := Except.ok { errorSummary := none } }
        { status := 200,
          body := Except.ok { status := some "ACTIVE", statusChanged := none,
                              lastUpdated := some "2024-01-15T12:45:00.000Z" } }).2 =
      Except.ok { userId := some "user123", unsuspended := true,
                  address := "https://example.okta.com",
                  unsuspendedAt := jsOr none (some "2024-01-15T12:45:00.000Z"),
                  status := some "ACTIVE" } ∧
    jsOr none (some "2024-01-15T12:45:00.000Z") = some "2024-01-15T12:45:00.000Z" :=
  have h := claim_C9_timestamp_fallback "user123" "https://example.okta.com" "SSWS test-token"
    true (Except.ok { errorSummary := none }) (some "ACTIVE") none
    (some "2024-01-15T12:45:00.000Z") 200 200 (by decide) (by decide) (by decide)
  ⟨h.1, h.2.2 (Or.inl rfl)⟩

/-- C10: for every verification read-back whose status field is any string
other than "SUSPENDED" — including non-ACTIVE provider states — invoke
(after a 2xx or 400 transition) returns success with unsuspended true and
that exact status string; the code never requires "ACTIVE". -/
theorem claim_C10_non_suspended_statuses (uid baseUrl auth : String) (bset : Bool)
    (tb : Except String TransitionBody) (st : String) (sc lu : Option String) (t r : Nat)
    (hst : st ≠ "SUSPENDED") (ht : (200 ≤ t ∧ t < 300) ∨ t = 400) (hr : 200 ≤ r ∧ r < 300) :
    (invoke (some uid) (Except.ok baseUrl) (Except.ok auth) bset
        { status := t, body := tb }
        { status := r,
          body := Except.ok { status := some st, statusChanged := sc, lastUpdated := lu } }).2 =
      Except.ok { userId := some uid, unsuspended := true, address := baseUrl,
                  unsuspendedAt := jsOr sc lu, status := some st } := by
  have h1 := transitionPasses ht
  have h2 := responseOk_true hr
  simp [invoke, h1, h2, hst]

/-- Witness for C10 at the test scenario with the non-standard status
"RECOVERY": the result carries that status. -/
theorem claim_C10_witness :
    (invoke (some "user123") (Except.ok "https://example.okta.com")
        (Except.ok "SSWS test-token") true
        { status := 200, body := Except.ok { errorSummary := none } }
        { status := 200,
          body := Except.ok { status := some "RECOVERY",
                              statusChanged := some "2024-01-15T10:30:00.000Z",
                              lastUpdated := none } }).2 =
      Except.ok { userId := some "user123", unsuspended := true,
                  address := "https://example.okta.com",
                  unsuspendedAt := jsOr (some "2024-01-15T10:30:00.000Z") none,
                  status := some "RECOVERY" } :=
  claim_C10_non_suspended_statuses "user123" "https://example.okta.com" "SSWS test-token"
    true (Except.ok { errorSummary := none }) "RECOVERY"
    (some "2024-01-15T10:30:00.000Z") none 200 200 (by decide) (by decide) (by decide)

end OktaUnsuspend
